import Mathlib

/-
Verification of the render-tracker job queue engine.

The definitions below are a shallow embedding of the job store
(database.py, class JobDatabase) and of the queue-engine routes in
server.py.  The SQLite jobs table is modelled as a list of rows; SQL
"ORDER BY id" is modelled by an executable insertion sort on the id
field; timestamps are uninterpreted strings supplied by the caller (the
"datetime.now" value of the call); the abstract ISO-8601 parsing done by
"datetime.fromisoformat" is a parameter of type String -> Option Int
(none models the except-branch for a malformed string).
-/

namespace RenderTracker

/-- One row of the jobs table, with the six columns created by
init_database in database.py: id (INTEGER PRIMARY KEY), status (TEXT),
created_at, updated_at (TIMESTAMP), start_time (TIMESTAMP NULL),
worker_url (TEXT NULL). -/
structure Row where
  id : Nat
  status : String
  created_at : String
  updated_at : String
  start_time : Option String
  worker_url : Option String
deriving DecidableEq

/-- Insert a row into a list that is ascending by id, keeping it ascending.
Used to model the SQL ORDER BY id clause. -/
def insertById (r : Row) : List Row → List Row
  | [] => [r]
  | x :: xs => if r.id ≤ x.id then r :: x :: xs else x :: insertById r xs

/-- Sort a list of rows ascending by id: the model of SQL ORDER BY id. -/
def sortById : List Row → List Row
  | [] => []
  | x :: xs => insertById x (sortById xs)

/-- Ordering of rows by their id column. -/
def rowLe (a b : Row) : Prop := a.id ≤ b.id

theorem mem_insertById (r a : Row) (l : List Row) :
    a ∈ insertById r l ↔ a = r ∨ a ∈ l := by
  induction l with
  | nil => simp [insertById]
  | cons x xs ih =>
    by_cases h : r.id ≤ x.id
    · simp [insertById, h]
    · simp [insertById, h, ih]
      tauto

theorem pairwise_insertById (r : Row) (l : List Row)
    (h : List.Pairwise rowLe l) : List.Pairwise rowLe (insertById r l) := by
  induction l with
  | nil => simp [insertById, rowLe]
  | cons x xs ih =>
    rcases List.pairwise_cons.mp h with ⟨hx, hxs⟩
    by_cases hle : r.id ≤ x.id
    · simp only [insertById, if_pos hle]
      refine List.pairwise_cons.mpr ⟨?_, h⟩
      intro b hb
      rcases List.mem_cons.mp hb with hb | hb
      · subst hb
        exact hle
      · exact Nat.le_trans hle (hx b hb)
    · simp only [insertById, if_neg hle]
      refine List.pairwise_cons.mpr ⟨?_, ih hxs⟩
      intro b hb
      rcases (mem_insertById r b xs).mp hb with hb | hb
      · subst hb
        exact Nat.le_of_lt (Nat.lt_of_not_le hle)
      · exact hx b hb

theorem mem_sortById (a : Row) (l : List Row) :
    a ∈ sortById l ↔ a ∈ l := by
  induction l with
  | nil => simp [sortById]
  | cons x xs ih => simp [sortById, mem_insertById, ih]

theorem pairwise_sortById (l : List Row) :
    List.Pairwise rowLe (sortById l) := by
  induction l with
  | nil => simp [sortById]
  | cons x xs ih => exact pairwise_insertById x (sortById xs) ih

theorem sortById_eq_self (l : List Row) (h : List.Pairwise rowLe l) :
    sortById l = l := by
  induction l with
  | nil => rfl
  | cons x xs ih =>
    rcases List.pairwise_cons.mp h with ⟨hx, hxs⟩
    rw [sortById, ih hxs]
    cases xs with
    | nil => rfl
    | cons y ys =>
      have : x.id ≤ y.id := hx y (List.mem_cons_self y ys)
      simp [insertById, this]

/-- The six status values accepted by update_job_status in
database_backup.py (valid_statuses). -/
def valid_statuses : List String :=
  ["inactive", "working", "complete", "done", "error", "flagged"]

/- ------------------------------------------------------------------
Job store operations (database.py, class JobDatabase).
Each operation takes the table and the current timestamp and returns its
Python return value together with the table after the statement.
------------------------------------------------------------------ -/

/-- claim_job from database.py: UPDATE jobs SET status = "working",
updated_at = now, start_time = now WHERE id = job_id AND status =
"inactive"; returns cursor.rowcount > 0. -/
def claim_job (t : List Row) (job_id : Nat) (now : String) : Bool × List Row :=
  (t.countP (fun r => r.id == job_id && r.status == "inactive") != 0,
   t.map (fun r =>
     if r.id == job_id && r.status == "inactive" then
       { r with status := "working", updated_at := now, start_time := some now }
     else r))

/-- update_job_status from database.py (the second, shadowing
definition): when the new status is "working" it sets start_time = now,
otherwise it sets start_time = NULL; in both branches it sets the status
unconditionally and sets updated_at = now for the row with the given id;
returns cursor.rowcount > 0. -/
def update_job_status (t : List Row) (job_id : Nat) (status now : String) :
    Bool × List Row :=
  if status == "working" then
    (t.countP (fun r => r.id == job_id) != 0,
     t.map (fun r =>
       if r.id == job_id then
         { r with status := status, updated_at := now, start_time := some now }
       else r))
  else
    (t.countP (fun r => r.id == job_id) != 0,
     t.map (fun r =>
       if r.id == job_id then
         { r with status := status, updated_at := now, start_time := none }
       else r))

/-- update_job_status from database_backup.py: rejects a status outside
valid_statuses by returning False without touching the table; otherwise
UPDATE jobs SET status = status, updated_at = now WHERE id = job_id. -/
def backup_update_job_status (t : List Row) (job_id : Nat)
    (status now : String) : Bool × List Row :=
  if valid_statuses.contains status then
    (t.countP (fun r => r.id == job_id) != 0,
     t.map (fun r =>
       if r.id == job_id then { r with status := status, updated_at := now }
       else r))
  else
    (false, t)

/- ------------------------------------------------------------------
Helper lemmas shared by several claims.
------------------------------------------------------------------ -/

theorem countP_bne_zero {l : List Row} {p : Row → Bool} :
    ((l.countP p != 0) = true) ↔ ∃ a ∈ l, p a = true := by
  rw [bne_iff_ne]
  constructor
  · intro h
    exact List.countP_pos_iff.mp (Nat.pos_of_ne_zero h)
  · intro h
    exact Nat.pos_iff_ne_zero.mp (List.countP_pos_iff.mpr h)

theorem mem_map_if_pos {t : List Row} {p : Row → Bool} {f : Row → Row}
    {r : Row} (hr : r ∈ t) (hp : p r = true) :
    f r ∈ t.map (fun x => if p x then f x else x) := by
  have h := List.mem_map_of_mem (fun x => if p x then f x else x) hr
  simpa [hp] using h

theorem mem_map_if_neg {t : List Row} {p : Row → Bool} {f : Row → Row}
    {r : Row} (hr : r ∈ t) (hp : p r = false) :
    r ∈ t.map (fun x => if p x then f x else x) := by
  have h := List.mem_map_of_mem (fun x => if p x then f x else x) hr
  simpa [hp] using h

theorem map_if_eq_self {t : List Row} {p : Row → Bool} {f : Row → Row}
    (h : ∀ r ∈ t, p r = false) :
    t.map (fun x => if p x then f x else x) = t := by
  induction t with
  | nil => rfl
  | cons x xs ih =>
    have hx := h x (List.mem_cons_self x xs)
    simp [hx, ih (fun r hr => h r (List.mem_cons_of_mem x hr))]

/- ------------------------------------------------------------------
get_next_job (database.py): SELECT id, status, created_at, updated_at
FROM jobs WHERE status = "inactive" ORDER BY id LIMIT 1, then, when a
row was found, UPDATE jobs SET status = "working", updated_at = now
WHERE id = job_id, and return dict(job) of the row as it was SELECTed.
------------------------------------------------------------------ -/

/-- The dict returned by get_next_job: only the four SELECTed columns.
The SELECT list has neither start_time nor worker_url. -/
structure NextJobRow where
  id : Nat
  status : String
  created_at : String
  updated_at : String
deriving DecidableEq

/-- The SELECT step of get_next_job: first row of the table restricted
to status = "inactive" and ordered by id (LIMIT 1). -/
def gnj_select (t : List Row) : Option NextJobRow :=
  match (sortById (t.filter (fun r => r.status == "inactive"))).head? with
  | none => none
  | some j => some ⟨j.id, j.status, j.created_at, j.updated_at⟩

/-- The UPDATE step of get_next_job: unconditional by id, sets the
status to "working" and updated_at to now.  Note that the UPDATE has no
status = "inactive" guard and touches neither start_time nor
worker_url. -/
def gnj_update (t : List Row) (job_id : Nat) (now : String) : List Row :=
  t.map (fun r =>
    if r.id == job_id then { r with status := "working", updated_at := now }
    else r)

/-- get_next_job from database.py: the SELECT step followed by the
UPDATE step; returns the row as read by the SELECT (not the updated
row). -/
def get_next_job (t : List Row) (now : String) : Option NextJobRow × List Row :=
  match gnj_select t with
  | none => (none, t)
  | some j => (some j, gnj_update t j.id now)

/-- Two concurrent executions of get_next_job under the interleaving in
which both SELECT steps run before either UPDATE step.  Nothing in
get_next_job forbids this schedule: the SELECT and the UPDATE are two
separate statements, the UPDATE is not conditioned on the status still
being "inactive", and the sqlite3 connection does not open a
serializing transaction before the SELECT. -/
def two_next_job_calls_interleaved (t : List Row) (now1 now2 : String) :
    (Option NextJobRow × Option NextJobRow) × List Row :=
  let r1 := gnj_select t
  let r2 := gnj_select t
  let t1 := match r1 with
    | none => t
    | some j => gnj_update t j.id now1
  let t2 := match r2 with
    | none => t1
    | some j => gnj_update t1 j.id now2
  ((r1, r2), t2)

/- Concrete rows used as test fixtures below. -/

/-- A fixture: the inactive job with id 1. -/
def rowA : Row := ⟨1, "inactive", "c1", "u1", none, none⟩

/-- A fixture: the inactive job with id 2. -/
def rowB : Row := ⟨2, "inactive", "c2", "u2", none, none⟩

/- ------------------------------------------------------------------
C1: behaviour of get_next_job.
------------------------------------------------------------------ -/

/-- C1 counterexample: on a table holding the single inactive job 1,
get_next_job returns the row as it was before the update (its status
field is "inactive", not "working"), and the stored row afterwards has
start_time = none and worker_url = none, although the claim states that
the call sets start_time and worker_url and returns the updated row. -/
theorem c1_counterexample :
    (get_next_job [rowA] "t1").1 = some ⟨1, "inactive", "c1", "u1"⟩ ∧
    (get_next_job [rowA] "t1").2 = [⟨1, "working", "c1", "t1", none, none⟩] := by
  decide

/-- C1 (amended): get_next_job selects the lowest-id job whose status is
"inactive" and, in the store, transitions it to "working" and sets
updated_at to the current time, leaving start_time and worker_url
unchanged; it returns the selected row as read before the update (with
status "inactive" and the old updated_at, and without start_time or
worker_url fields); if no inactive job exists it returns none and
leaves the table unchanged. -/
theorem c1_next_job_spec (t : List Row) (now : String) :
    ((get_next_job t now).1 = none →
      (get_next_job t now).2 = t ∧ ∀ r ∈ t, r.status ≠ "inactive") ∧
    (∀ v, (get_next_job t now).1 = some v →
      v.status = "inactive" ∧
      (∃ r ∈ t, r.id = v.id ∧ r.status = "inactive" ∧
        r.created_at = v.created_at ∧ r.updated_at = v.updated_at) ∧
      (∀ r ∈ t, r.status = "inactive" → v.id ≤ r.id) ∧
      (get_next_job t now).2 = gnj_update t v.id now) := by
  constructor
  · intro hnone
    cases hsl : sortById (t.filter (fun r => r.status == "inactive")) with
    | cons a as =>
      have hfst : (get_next_job t now).1 =
          some ⟨a.id, a.status, a.created_at, a.updated_at⟩ := by
        simp [get_next_job, gnj_select, hsl]
      rw [hfst] at hnone
      exact absurd hnone (by simp)
    | nil =>
      refine ⟨by simp [get_next_job, gnj_select, hsl], ?_⟩
      intro r hr hst
      have h1 : r ∈ sortById (t.filter (fun r => r.status == "inactive")) :=
        (mem_sortById r _).mpr (List.mem_filter.mpr ⟨hr, by simp [hst]⟩)
      rw [hsl] at h1
      exact absurd h1 (List.not_mem_nil r)
  · intro v hv
    cases hsl : sortById (t.filter (fun r => r.status == "inactive")) with
    | nil =>
      have hfst : (get_next_job t now).1 = none := by
        simp [get_next_job, gnj_select, hsl]
      rw [hfst] at hv
      exact absurd hv (by simp)
    | cons a as =>
      have hsel : gnj_select t = some ⟨a.id, a.status, a.created_at, a.updated_at⟩ := by
        simp [gnj_select, hsl]
      have hfst : (get_next_job t now).1 =
          some ⟨a.id, a.status, a.created_at, a.updated_at⟩ := by
        simp [get_next_job, hsel]
      have hva : v = ⟨a.id, a.status, a.created_at, a.updated_at⟩ := by
        rw [hfst] at hv
        exact (Option.some.inj hv).symm
      have hamem : a ∈ t ∧ a.status = "inactive" := by
        have h1 : a ∈ sortById (t.filter (fun r => r.status == "inactive")) := by
          rw [hsl]
          exact List.mem_cons_self a as
        have h3 := List.mem_filter.mp ((mem_sortById a _).mp h1)
        exact ⟨h3.1, by simpa using h3.2⟩
      subst hva
      refine ⟨hamem.2, ⟨a, hamem.1, rfl, hamem.2, rfl, rfl⟩, ?_, ?_⟩
      · intro r hr hst
        have h1 : r ∈ sortById (t.filter (fun r => r.status == "inactive")) :=
          (mem_sortById r _).mpr (List.mem_filter.mpr ⟨hr, by simp [hst]⟩)
        have hpw := pairwise_sortById (t.filter (fun r => r.status == "inactive"))
        rw [hsl] at h1 hpw
        rcases List.mem_cons.mp h1 with h1 | h1
        · subst h1
          exact Nat.le_refl _
        · exact (List.pairwise_cons.mp hpw).1 r h1
      · simp [get_next_job, hsel]

/-- C1 witness: instantiating the amended claim on the two-job table
with the jobs listed out of id order shows the selected id 1 is minimal
and the resulting table is the one-row update. -/
theorem c1_witness :
    (⟨1, "inactive", "c1", "u1"⟩ : NextJobRow).id ≤ rowB.id ∧
    (get_next_job [rowB, rowA] "t1").2 = gnj_update [rowB, rowA] 1 "t1" := by
  have h := (c1_next_job_spec [rowB, rowA] "t1").2
    ⟨1, "inactive", "c1", "u1"⟩ (by decide)
  exact ⟨h.2.2.1 rowB (by decide) (by decide), h.2.2.2⟩

/- ------------------------------------------------------------------
C2: two concurrent get_next_job calls.
------------------------------------------------------------------ -/

/-- C2: the race in get_next_job.  On a table of two inactive jobs, the
interleaving in which both SELECT steps run before either UPDATE step
makes both calls return job id 1, while job 2 stays inactive: with N = 2
concurrent calls and M = 2 inactive jobs, two calls return the same job
id instead of distinct ids, because the claim is a read-then-write pair
whose UPDATE is not conditioned on status = "inactive". -/
theorem c2_interleaving_double_claim :
    (two_next_job_calls_interleaved [rowA, rowB] "t1" "t2").1.1 =
      some ⟨1, "inactive", "c1", "u1"⟩ ∧
    (two_next_job_calls_interleaved [rowA, rowB] "t1" "t2").1.2 =
      some ⟨1, "inactive", "c1", "u1"⟩ ∧
    (two_next_job_calls_interleaved [rowA, rowB] "t1" "t2").2 =
      [⟨1, "working", "c1", "t2", none, none⟩, rowB] := by
  decide

/- ------------------------------------------------------------------
C3: claim_job.
------------------------------------------------------------------ -/

/-- C3: claim_job succeeds exactly when a row with the given id exists
with status "inactive"; on failure it returns false and the table is
entirely unchanged (in particular updated_at and worker_url keep their
values); on success the matching inactive row is stored with status
"working", updated_at = now and start_time = now, and every row not
matched by the conditional UPDATE is unchanged. -/
theorem c3_claim_job_spec (t : List Row) (job_id : Nat) (now : String) :
    ((claim_job t job_id now).1 = true ↔
      ∃ r ∈ t, r.id = job_id ∧ r.status = "inactive") ∧
    ((claim_job t job_id now).1 = false → (claim_job t job_id now).2 = t) ∧
    (∀ r ∈ t, r.id = job_id → r.status = "inactive" →
      { r with status := "working", updated_at := now, start_time := some now }
        ∈ (claim_job t job_id now).2) ∧
    (∀ r ∈ t, ¬(r.id = job_id ∧ r.status = "inactive") →
      r ∈ (claim_job t job_id now).2) := by
  refine ⟨?_, ?_, ?_, ?_⟩
  · rw [show (claim_job t job_id now).1 =
        (t.countP (fun r => r.id == job_id && r.status == "inactive") != 0) from rfl,
      countP_bne_zero]
    simp
  · intro hfail
    have hall : ∀ r ∈ t, (r.id == job_id && r.status == "inactive") = false := by
      intro r hr
      by_contra hne
      have : (claim_job t job_id now).1 = true := by
        rw [show (claim_job t job_id now).1 =
            (t.countP (fun r => r.id == job_id && r.status == "inactive") != 0) from rfl,
          countP_bne_zero]
        exact ⟨r, hr, by simpa using hne⟩
      rw [this] at hfail
      exact absurd hfail (by simp)
    exact map_if_eq_self hall
  · intro r hr hid hst
    exact mem_map_if_pos hr (by simp [hid, hst])
  · intro r hr hno
    exact mem_map_if_neg hr (by simpa using hno)

/-- C3 witness: claiming the inactive job 1 succeeds and stores the
working row, and claiming an already-working job fails and leaves the
table unchanged. -/
theorem c3_witness :
    (claim_job [rowA] 1 "t1").1 = true ∧
    (⟨1, "working", "c1", "t1", some "t1", none⟩ : Row) ∈ (claim_job [rowA] 1 "t1").2 ∧
    (claim_job [⟨1, "working", "c1", "u1", none, none⟩] 1 "t1").2 =
      [⟨1, "working", "c1", "u1", none, none⟩] := by
  refine ⟨?_, ?_, ?_⟩
  · exact (c3_claim_job_spec [rowA] 1 "t1").1.mpr ⟨rowA, by decide, rfl, rfl⟩
  · exact (c3_claim_job_spec [rowA] 1 "t1").2.2.1 rowA (by decide) rfl rfl
  · exact (c3_claim_job_spec [⟨1, "working", "c1", "u1", none, none⟩] 1 "t1").2.1
      (by decide)

/- ------------------------------------------------------------------
C4: update_job_status (the operative, shadowing definition).
------------------------------------------------------------------ -/

/-- C4: update_job_status sets the status unconditionally from any
current status for an existing id and returns false exactly when the id
is missing; every updated row gets updated_at = now; when the new status
is "working" the updated row gets start_time = now, and for any other
new status start_time is cleared to none; rows with a different id are
unchanged. -/
theorem c4_update_status_spec (t : List Row) (job_id : Nat) (status now : String) :
    ((update_job_status t job_id status now).1 = true ↔ ∃ r ∈ t, r.id = job_id) ∧
    (∀ r ∈ t, r.id = job_id →
      (status = "working" →
        { r with status := status, updated_at := now, start_time := some now }
          ∈ (update_job_status t job_id status now).2) ∧
      (status ≠ "working" →
        { r with status := status, updated_at := now, start_time := none }
          ∈ (update_job_status t job_id status now).2)) ∧
    (∀ r ∈ t, r.id ≠ job_id → r ∈ (update_job_status t job_id status now).2) := by
  by_cases hw : status == "working"
  · refine ⟨?_, ?_, ?_⟩
    · rw [show (update_job_status t job_id status now).1 =
          (t.countP (fun r => r.id == job_id) != 0) by simp [update_job_status, hw],
        countP_bne_zero]
      simp
    · intro r hr hid
      constructor
      · intro _
        have h : { r with status := status, updated_at := now, start_time := some now }
            ∈ t.map (fun x =>
              if x.id == job_id then
                { x with status := status, updated_at := now, start_time := some now }
              else x) :=
          mem_map_if_pos hr (by simp [hid])
        simpa [update_job_status, hw] using h
      · intro hne
        have hsw : status = "working" := by simpa using hw
        exact absurd hsw hne
    · intro r hr hid
      have h : r ∈ t.map (fun x =>
          if x.id == job_id then
            { x with status := status, updated_at := now, start_time := some now }
          else x) :=
        mem_map_if_neg hr (by simp [hid])
      simpa [update_job_status, hw] using h
  · refine ⟨?_, ?_, ?_⟩
    · rw [show (update_job_status t job_id status now).1 =
          (t.countP (fun r => r.id == job_id) != 0) by simp [update_job_status, hw],
        countP_bne_zero]
      simp
    · intro r hr hid
      constructor
      · intro heq
        subst heq
        simp at hw
      · intro _
        have h : { r with status := status, updated_at := now, start_time := none }
            ∈ t.map (fun x =>
              if x.id == job_id then
                { x with status := status, updated_at := now, start_time := none }
              else x) :=
          mem_map_if_pos hr (by simp [hid])
        simpa [update_job_status, hw] using h
    · intro r hr hid
      have h : r ∈ t.map (fun x =>
          if x.id == job_id then
            { x with status := status, updated_at := now, start_time := none }
          else x) :=
        mem_map_if_neg hr (by simp [hid])
      simpa [update_job_status, hw] using h

/-- C4 witness: updating job 1 to "working" succeeds and stores
start_time = now, and updating a previously working job to "done"
clears start_time to none and advances updated_at. -/
theorem c4_witness :
    (update_job_status [rowA] 1 "working" "t1").1 = true ∧
    (⟨1, "working", "c1", "t1", some "t1", none⟩ : Row)
      ∈ (update_job_status [rowA] 1 "working" "t1").2 ∧
    (⟨1, "done", "c1", "t2", none, none⟩ : Row)
      ∈ (update_job_status [⟨1, "working", "c1", "u1", some "s1", none⟩] 1 "done" "t2").2 := by
  refine ⟨?_, ?_, ?_⟩
  · exact (c4_update_status_spec [rowA] 1 "working" "t1").1.mpr ⟨rowA, by decide, rfl⟩
  · exact ((c4_update_status_spec [rowA] 1 "working" "t1").2.1 rowA
      (by decide) rfl).1 rfl
  · exact ((c4_update_status_spec [⟨1, "working", "c1", "u1", some "s1", none⟩]
      1 "done" "t2").2.1 ⟨1, "working", "c1", "u1", some "s1", none⟩
      (by decide) rfl).2 (by decide)

/- ------------------------------------------------------------------
C5: validation of the status value.
------------------------------------------------------------------ -/

/-- C5 counterexample: the operative update_job_status (the second,
shadowing definition in database.py) performs no validation: called
with the string "bogus", which is outside the six enum members, on the
existing job 1 it returns true and persists the unknown value. -/
theorem c5_counterexample :
    update_job_status [rowA] 1 "bogus" "t1" =
      (true, [⟨1, "bogus", "c1", "t1", none, none⟩]) ∧
    valid_statuses.contains "bogus" = false := by
  decide

/-- C5 (amended): only the backup store rejects unknown status values:
for a status outside the six enum members, update_job_status of
database_backup.py returns false and leaves the table unchanged, while
the operative update_job_status of database.py accepts the call and
persists the unknown string (with start_time cleared) for every row
with the given id. -/
theorem c5_validation_spec (t : List Row) (job_id : Nat) (s now : String)
    (h : valid_statuses.contains s = false) :
    backup_update_job_status t job_id s now = (false, t) ∧
    ∀ r ∈ t, r.id = job_id →
      { r with status := s, updated_at := now, start_time := none }
        ∈ (update_job_status t job_id s now).2 := by
  constructor
  · unfold backup_update_job_status
    rw [h]
    simp
  · intro r hr hid
    have hsw : ¬(s == "working") := by
      intro hs
      have : s = "working" := by simpa using hs
      subst this
      simp [valid_statuses] at h
    have hmem : { r with status := s, updated_at := now, start_time := none }
        ∈ t.map (fun x =>
          if x.id == job_id then
            { x with status := s, updated_at := now, start_time := none }
          else x) :=
      mem_map_if_pos hr (by simp [hid])
    simpa [update_job_status, hsw] using hmem

/-- C5 witness: instantiating the amended claim at the status "bogus" on
the one-row table. -/
theorem c5_witness :
    backup_update_job_status [rowA] 1 "bogus" "t1" = (false, [rowA]) ∧
    (⟨1, "bogus", "c1", "t1", none, none⟩ : Row)
      ∈ (update_job_status [rowA] 1 "bogus" "t1").2 := by
  have h := c5_validation_spec [rowA] 1 "bogus" "t1" (by decide)
  exact ⟨h.1, h.2 rowA (by decide) rfl⟩

/- ------------------------------------------------------------------
Read path (server.py): calculate_elapsed_time, get_job_by_id and the
routes GET /job/id and GET /jobs.
------------------------------------------------------------------ -/

/-- Python truthiness of an optional string: None and the empty string
are falsy, every other string is truthy. -/
def pyTruthy : Option String → Bool
  | none => false
  | some s => !(s == "")

/-- calculate_elapsed_time from server.py.  The argument parse abstracts
datetime.fromisoformat together with the Z-suffix replacement and the
timezone defaulting; parse s = none models the except branch taken for a
malformed string.  Timestamps are modelled as epoch seconds, so the
difference now - start_time is already in whole seconds, matching
int(elapsed.total_seconds()).  A missing or empty string returns none
(the "if not start_time_str" guard). -/
def calculate_elapsed_time (parse : String → Option Int) (now : Int) :
    Option String → Option Int
  | none => none
  | some s =>
    if s == "" then none
    else
      match parse s with
      | none => none
      | some start_time => some (now - start_time)

/-- The dict returned by get_job_by_id in database.py: the SELECT lists
exactly the five columns id, status, created_at, updated_at,
start_time — neither worker_url nor starred is selected. -/
structure JobByIdRow where
  id : Nat
  status : String
  created_at : String
  updated_at : String
  start_time : Option String
deriving DecidableEq

/-- get_job_by_id from database.py: SELECT id, status, created_at,
updated_at, start_time FROM jobs WHERE id = job_id, fetchone. -/
def get_job_by_id (t : List Row) (job_id : Nat) : Option JobByIdRow :=
  match t.find? (fun r => r.id == job_id) with
  | none => none
  | some r => some ⟨r.id, r.status, r.created_at, r.updated_at, r.start_time⟩

/-- The JobResponse pydantic model of server.py. -/
structure JobResponse where
  id : Nat
  status : String
  created_at : String
  updated_at : String
  start_time : Option String
  elapsed_time : Option Int
  worker_url : Option String
  starred : Bool
deriving DecidableEq

/-- The route GET /job/job_id of server.py.  The dict produced by
get_job_by_id has no worker_url and no starred key, so
job.get("worker_url") is None and bool(job.get("starred", False)) is
False; elapsed_time is computed only when the status is "working" and
start_time is truthy.  A missing job raises HTTPException(404), which
the enclosing broad except re-raises as a 500 error response; both are
modelled as the error case. -/
def get_job (t : List Row) (job_id : Nat) (parse : String → Option Int)
    (now : Int) : Except String JobResponse :=
  match get_job_by_id t job_id with
  | none => Except.error "Job not found"
  | some job =>
    Except.ok
      { id := job.id, status := job.status, created_at := job.created_at,
        updated_at := job.updated_at, start_time := job.start_time,
        elapsed_time :=
          if job.status == "working" && pyTruthy job.start_time then
            calculate_elapsed_time parse now job.start_time
          else none,
        worker_url := none, starred := false }

/-- Whether a route call produced a success response. -/
def routeOk {e a : Type} : Except e a → Bool
  | Except.ok _ => true
  | Except.error _ => false

/-- C6: when get_job_by_id finds the job, the GET /job/id read always
succeeds, and its elapsed_time is some value exactly when the status is
"working", start_time is a present non-empty string, and that string
parses; the value is then now - start_time in whole seconds, computed
from the server clock value now; in every other case — wrong status,
missing start_time, or a malformed string the parser rejects — the
response carries elapsed_time = none instead of the read failing. -/
theorem c6_elapsed_spec (t : List Row) (job_id : Nat)
    (parse : String → Option Int) (now : Int) (job : JobByIdRow)
    (h : get_job_by_id t job_id = some job) :
    routeOk (get_job t job_id parse now) = true ∧
    ∀ v : Int,
      ((get_job t job_id parse now).map (fun r => r.elapsed_time) =
          Except.ok (some v) ↔
        job.status = "working" ∧ ∃ s ts, job.start_time = some s ∧ s ≠ "" ∧
          parse s = some ts ∧ v = now - ts) := by
  have hok : get_job t job_id parse now = Except.ok
      { id := job.id, status := job.status, created_at := job.created_at,
        updated_at := job.updated_at, start_time := job.start_time,
        elapsed_time :=
          if job.status == "working" && pyTruthy job.start_time then
            calculate_elapsed_time parse now job.start_time
          else none,
        worker_url := none, starred := false } := by
    unfold get_job
    rw [h]
  refine ⟨by rw [hok]; rfl, ?_⟩
  intro v
  rw [hok]
  simp only [Except.map, Except.ok.injEq]
  by_cases hw : job.status = "working"
  · cases hst : job.start_time with
    | none => simp [hw, hst, pyTruthy]
    | some s =>
      by_cases hs : s = ""
      · subst hs
        simp [hw, hst, pyTruthy]
      · cases hp : parse s with
        | none =>
          simp [hw, hst, pyTruthy, hs, calculate_elapsed_time, hp]
        | some ts =>
          have hc2 : (s == "") = false := by simpa using hs
          have hel : (if (job.status == "working" && pyTruthy (some s)) = true
              then calculate_elapsed_time parse now (some s) else none) =
              some (now - ts) := by
            rw [hw]
            simp [pyTruthy, calculate_elapsed_time, hc2, hp]
          rw [hel]
          constructor
          · intro hv
            exact ⟨hw, s, ts, rfl, hs, hp, (Option.some.inj hv).symm⟩
          · rintro ⟨-, s0, ts0, hs0, -, hp0, hv⟩
            have hss : s0 = s := (Option.some.inj hs0).symm
            subst hss
            rw [hp] at hp0
            have hts : ts0 = ts := (Option.some.inj hp0).symm
            subst hts
            rw [hv]
  · have hwb : (job.status == "working") = false := by
      simpa using hw
    simp [hwb, hw]

/-- A fixture: a working job with a stored start_time string. -/
def wRow : Row := ⟨7, "working", "c7", "u7", some "sX", none⟩

/-- A fixture parser mapping every timestamp string to epoch second 3. -/
def parseW : String → Option Int := fun _ => some 3

/-- C6 witness: reading the working job 7 with a parser that returns
epoch second 3 at server time 10 yields elapsed_time = 7 seconds. -/
theorem c6_witness :
    (get_job [wRow] 7 parseW 10).map (fun r => r.elapsed_time) =
      Except.ok (some 7) := by
  have h := (c6_elapsed_spec [wRow] 7 parseW 10
    ⟨7, "working", "c7", "u7", some "sX"⟩ rfl).2 7
  exact h.mpr ⟨rfl, "sX", 3, rfl, by decide, rfl, by decide⟩

/- ------------------------------------------------------------------
C9: fields hidden by the get_job_by_id SELECT list.
------------------------------------------------------------------ -/

/-- C9: whenever a row with the requested id exists and stores some
worker_url, the GET /job/id read succeeds yet reports worker_url as
absent and starred as false, because get_job_by_id selects only the
columns id, status, created_at, updated_at, start_time, and the route
falls back to None and bool(False) for the missing dict keys. -/
theorem c9_hidden_fields_spec (t : List Row) (job_id : Nat)
    (parse : String → Option Int) (now : Int) (u : String)
    (h : ∃ r ∈ t, r.id = job_id ∧ r.worker_url = some u) :
    (get_job t job_id parse now).map (fun r => (r.worker_url, r.starred)) =
      Except.ok (none, false) := by
  obtain ⟨r, hr, hid, _⟩ := h
  have hfind : (t.find? (fun r => r.id == job_id)).isSome := by
    rw [List.find?_isSome]
    exact ⟨r, hr, by simp [hid]⟩
  obtain ⟨r0, hr0⟩ := Option.isSome_iff_exists.mp hfind
  unfold get_job get_job_by_id
  rw [hr0]
  rfl

/-- A fixture: a done job that stores a worker_url value. -/
def wuRow : Row := ⟨3, "done", "c3", "u3", none, some "hw"⟩

/-- C9 witness: job 3 stores worker_url = "hw", yet the read reports
worker_url = none and starred = false. -/
theorem c9_witness :
    (get_job [wuRow] 3 parseW 10).map (fun r => (r.worker_url, r.starred)) =
      Except.ok (none, false) :=
  c9_hidden_fields_spec [wuRow] 3 parseW 10 "hw" ⟨wuRow, by decide, rfl, rfl⟩

/- ------------------------------------------------------------------
C10: the GET /jobs route and its page computation.
------------------------------------------------------------------ -/

/-- Python integer floor division, which raises ZeroDivisionError when
the divisor is zero; the error value is the str() of the exception that
the except branch turns into the 500 detail. -/
def pyFloorDiv (a b : Nat) : Except String Nat :=
  if b == 0 then Except.error "integer division or modulo by zero"
  else Except.ok (a / b)

/-- get_jobs from database.py: SELECT of the six columns, optionally
filtered by one status value (the "if status:" test, for which None and
the empty string both mean no filter), ORDER BY id LIMIT limit OFFSET
offset. -/
def db_get_jobs (t : List Row) (limit offset : Nat) (status : Option String) :
    List Row :=
  match status with
  | some s =>
    if s == "" then ((sortById t).drop offset).take limit
    else ((sortById (t.filter (fun r => r.status == s))).drop offset).take limit
  | none => ((sortById t).drop offset).take limit

/-- get_total_count from database.py: COUNT with the same optional
status filter. -/
def get_total_count (t : List Row) (status : Option String) : Nat :=
  match status with
  | some s =>
    if s == "" then t.length else (t.filter (fun r => r.status == s)).length
  | none => t.length

/-- The JobsResponse pydantic model of server.py. -/
structure JobsResponse where
  jobs : List JobResponse
  total : Nat
  page : Nat
  limit : Nat
deriving DecidableEq

/-- The per-job body of the GET /jobs loop in server.py: the dicts from
db.get_jobs carry worker_url but have no starred key, so starred is
always bool(False). -/
def job_to_response (parse : String → Option Int) (now : Int) (r : Row) :
    JobResponse :=
  { id := r.id, status := r.status, created_at := r.created_at,
    updated_at := r.updated_at, start_time := r.start_time,
    elapsed_time :=
      if r.status == "working" && pyTruthy r.start_time then
        calculate_elapsed_time parse now r.start_time
      else none,
    worker_url := r.worker_url, starred := false }

/-- The route GET /jobs of server.py: fetches the page, computes the
responses, then builds JobsResponse with page = offset // limit; the
division is evaluated inside the try block, so ZeroDivisionError is
caught by the broad except and returned as an error response. -/
def get_jobs_route (t : List Row) (limit offset : Nat) (status : Option String)
    (parse : String → Option Int) (now : Int) : Except String JobsResponse :=
  let jobs := db_get_jobs t limit offset status
  let total := get_total_count t status
  let job_responses := jobs.map (job_to_response parse now)
  match pyFloorDiv offset limit with
  | Except.error e => Except.error e
  | Except.ok page => Except.ok ⟨job_responses, total, page, limit⟩

/-- C10: every GET /jobs call with limit = 0 divides by zero when it
computes page = offset // limit and therefore returns the error
response for the ZeroDivisionError instead of an empty job list. -/
theorem c10_limit_zero_division (t : List Row) (offset : Nat)
    (status : Option String) (parse : String → Option Int) (now : Int) :
    get_jobs_route t 0 offset status parse now =
      Except.error "integer division or modulo by zero" := rfl

/- ------------------------------------------------------------------
C8: ConnectionManager.broadcast (server.py).
------------------------------------------------------------------ -/

/-- A WebSocket subscriber: alive means send_text succeeds, otherwise
send_text raises (the connection is dead). -/
structure Subscriber where
  sid : Nat
  alive : Bool
deriving DecidableEq

/-- The send_text call on one connection: delivers the message when the
connection is alive and raises otherwise. -/
def send_text (c : Subscriber) (msg : String) : Except String String :=
  if c.alive then Except.ok msg else Except.error "connection closed"

/-- The for-loop of broadcast: tries send_text on every connection,
collecting the deliveries that succeeded and, in the except branch, the
connections whose send failed (the disconnected list). -/
def broadcast_loop (msg : String) :
    List Subscriber → List (Nat × String) × List Subscriber →
    List (Nat × String) × List Subscriber
  | [], acc => acc
  | c :: rest, acc =>
    match send_text c msg with
    | Except.ok m => broadcast_loop msg rest (acc.1 ++ [(c.sid, m)], acc.2)
    | Except.error _ => broadcast_loop msg rest (acc.1, acc.2 ++ [c])

/-- broadcast from server.py: runs the send loop over the active set,
then discards each collected disconnected connection from the active
set; it returns the list of performed deliveries (connection id and
message) and the new active set.  The function is total: a send failure
is consumed by the loop and never escapes the call. -/
def broadcast (active : List Subscriber) (msg : String) :
    List (Nat × String) × List Subscriber :=
  let r := broadcast_loop msg active ([], [])
  (r.1, r.2.foldl (fun s c => s.filter (fun x => !(decide (x = c)))) active)

theorem broadcast_loop_spec (msg : String) (l : List Subscriber)
    (acc : List (Nat × String) × List Subscriber) :
    broadcast_loop msg l acc =
      (acc.1 ++ (l.filter (fun c => c.alive)).map (fun c => (c.sid, msg)),
       acc.2 ++ l.filter (fun c => !c.alive)) := by
  induction l generalizing acc with
  | nil => simp [broadcast_loop]
  | cons c rest ih =>
    by_cases hc : c.alive
    · simp [broadcast_loop, send_text, hc, ih]
    · simp [broadcast_loop, send_text, hc, ih]

theorem foldl_filter_spec (dead s : List Subscriber) :
    dead.foldl (fun s c => s.filter (fun x => !(decide (x = c)))) s =
      s.filter (fun x => dead.all (fun c => !(decide (x = c)))) := by
  induction dead generalizing s with
  | nil => simp
  | cons c rest ih =>
    rw [List.foldl_cons, ih, List.filter_filter]
    simp [List.all_cons, Bool.and_comm]

/-- C8: broadcast delivers the message to every alive subscriber in
registration order, and its resulting active set is exactly the old set
with the failed (dead) subscribers removed: one dead subscriber neither
blocks delivery to the others nor survives in the set, and the call
itself always returns. -/
theorem c8_broadcast_spec (active : List Subscriber) (msg : String) :
    (broadcast active msg).1 =
      (active.filter (fun c => c.alive)).map (fun c => (c.sid, msg)) ∧
    (broadcast active msg).2 = active.filter (fun c => c.alive) := by
  unfold broadcast
  rw [broadcast_loop_spec]
  refine ⟨by simp, ?_⟩
  simp only [List.nil_append]
  rw [foldl_filter_spec]
  apply List.filter_congr
  intro x hx
  cases hal : x.alive with
  | true =>
    rw [List.all_eq_true]
    intro c hc
    have hcd : c.alive = false := by
      have := (List.mem_filter.mp hc).2
      simpa using this
    have hne : x ≠ c := by
      intro hxc
      rw [hxc, hcd] at hal
      exact absurd hal (by simp)
    simp [hne]
  | false =>
    have hxm : x ∈ active.filter (fun c => !c.alive) :=
      List.mem_filter.mpr ⟨hx, by simp [hal]⟩
    refine Bool.eq_false_iff.mpr ?_
    intro hall
    have := List.all_eq_true.mp hall x hxm
    simp at this

/- ------------------------------------------------------------------
C7: the POST /jobs/reset-all route (second, shadowing definition).
------------------------------------------------------------------ -/

/-- The body of the reset-all loop in server.py for one fetched job:
jobs already inactive are skipped; otherwise update_job_status(job_id,
"inactive") runs against the current table and the reset counter is
incremented on success.  The Wasabi object-storage deletion attempted
alongside is an external side effect that touches neither the job table
nor reset_count and is not modelled. -/
def reset_step (now : String) (acc : Nat × List Row) (job : Row) : Nat × List Row :=
  if job.status != "inactive" then
    ((if (update_job_status acc.2 job.id "inactive" now).1 then acc.1 + 1 else acc.1),
     (update_job_status acc.2 job.id "inactive" now).2)
  else acc

/-- reset_all_jobs from server.py (the second definition of the
/jobs/reset-all route, which shadows the first): fetches
db.get_jobs(limit=10000) — only the first 10000 jobs by id — and folds
the reset loop over that snapshot. -/
def reset_all_jobs (t : List Row) (now : String) : Nat × List Row :=
  (db_get_jobs t 10000 0 none).foldl (reset_step now) (0, t)

theorem reset_foldl_noop (now : String) (l : List Row)
    (h : ∀ j ∈ l, j.status = "inactive") (acc : Nat × List Row) :
    l.foldl (reset_step now) acc = acc := by
  induction l generalizing acc with
  | nil => rfl
  | cons j rest ih =>
    have hj := h j (List.mem_cons_self j rest)
    rw [List.foldl_cons, show reset_step now acc j = acc by simp [reset_step, hj]]
    exact ih (fun r hr => h r (List.mem_cons_of_mem j hr)) acc

/-- A fixture: the inactive job with id i + 1 of the large seeded table. -/
def inactiveRow (i : Nat) : Row := ⟨i + 1, "inactive", "c0", "u0", none, none⟩

/-- A fixture: job 10001, stuck in status "working". -/
def overflowRow : Row := ⟨10001, "working", "c0", "u0", some "s0", none⟩

/-- A fixture table with 10001 jobs: ids 1..10000 inactive and job 10001
working, a small instance of the seeded table of 100000 jobs. -/
def bigTable : List Row := (List.range 10000).map inactiveRow ++ [overflowRow]

theorem bigTable_pairwise : List.Pairwise rowLe bigTable := by
  unfold bigTable
  rw [List.pairwise_append]
  refine ⟨?_, by simp, ?_⟩
  · rw [List.pairwise_map]
    exact (List.pairwise_lt_range 10000).imp
      (fun h => by simp only [rowLe, inactiveRow]; omega)
  · intro a ha b hb
    rcases List.mem_map.mp ha with ⟨i, hi, rfl⟩
    have hb1 : b = overflowRow := List.mem_singleton.mp hb
    have hi1 : i < 10000 := List.mem_range.mp hi
    rw [hb1]
    simp only [rowLe, inactiveRow, overflowRow]
    omega

theorem bigTable_window :
    db_get_jobs bigTable 10000 0 none = (List.range 10000).map inactiveRow := by
  unfold db_get_jobs
  rw [sortById_eq_self bigTable bigTable_pairwise, List.drop_zero]
  unfold bigTable
  exact List.take_left' (by simp)

/-- C7: reset-all does not transition every non-inactive job: on a table
of 10001 jobs where only job 10001 is not inactive, the call scans only
the 10000 lowest ids (db.get_jobs with limit 10000), leaves the table —
including the working job 10001 — completely unchanged, and reports
reset_count = 0 even though a non-inactive job exists. -/
theorem c7_reset_all_window_bug :
    reset_all_jobs bigTable "t1" = (0, bigTable) ∧
    overflowRow ∈ bigTable ∧ overflowRow.status = "working" := by
  refine ⟨?_, ?_, rfl⟩
  · unfold reset_all_jobs
    rw [bigTable_window]
    apply reset_foldl_noop
    intro j hj
    rcases List.mem_map.mp hj with ⟨i, _, rfl⟩
    rfl
  · unfold bigTable
    exact List.mem_append_right _ (List.mem_singleton_self _)

end RenderTracker
